import Mathlib

/- Shallow embedding of the reputation update engine of the storj satellite
   (package satellitedb, reputations code in the given sources): the per-node
   reputation row, the audit-history aggregation, and the update decision
   logic.  Conventions: Go float64 is modelled as ℚ, Go time.Time and
   time.Duration as Int (an absolute instant, resp. a length), Go int64 as
   Int, nullable columns as Option.  Database and marshalling errors are not
   modelled; the only failure mode kept is the stale-observation error of
   recordAuditHistory, surfaced through Except.  A transaction body that
   returns an error is rolled back by WithTx, so an Except.error result
   carries no mutated state. -/

/-- Outcome classes of one audit (reputation.AuditSuccess, AuditFailure,
AuditUnknown, AuditOffline). -/
inductive AuditOutcome where
  | success
  | failure
  | unknown
  | offline
  deriving DecidableEq

/-- One fixed-size window of observation counts (internalpb.AuditWindow). -/
structure AuditWindow where
  windowStart : Int
  totalCount : Int
  onlineCount : Int
  deriving DecidableEq

/-- A node's audit history record (internalpb.AuditHistory): the ordered
windows plus the cached aggregate score. -/
structure AuditHistory where
  score : ℚ
  windows : List AuditWindow
  deriving DecidableEq

/-- reputation.AuditHistoryConfig, as read by the functions below. -/
structure AuditHistoryConfig where
  windowSize : Int
  trackingPeriod : Int
  gracePeriod : Int
  offlineThreshold : ℚ
  offlineDQEnabled : Bool
  offlineSuspensionEnabled : Bool
  deriving DecidableEq

/-- reputation.UpdateAuditHistoryResponse. -/
structure UpdateAuditHistoryResponse where
  newScore : ℚ
  trackingPeriodFull : Bool
  deriving DecidableEq

/-- The dbx.Reputation row for one node, restricted to the fields the update
logic reads or writes. -/
structure Reputation where
  auditSuccessCount : Int
  totalAuditCount : Int
  vettedAt : Option Int
  contained : Bool
  disqualified : Option Int
  suspended : Option Int
  unknownAuditSuspended : Option Int
  offlineSuspended : Option Int
  underReview : Option Int
  onlineScore : ℚ
  auditReputationAlpha : ℚ
  auditReputationBeta : ℚ
  unknownAuditReputationAlpha : ℚ
  unknownAuditReputationBeta : ℚ
  deriving DecidableEq

/-- Modelled from the spec: overlay.ReputationStatus (declared outside the
given sources) carries the externally visible status fields of 4.4 -
contained, disqualified, unknownAuditSuspended, offlineSuspended, vettedAt -
and its Equal method compares exactly these five fields, which here is
propositional equality of the structure. -/
structure ReputationStatus where
  contained : Bool
  disqualified : Option Int
  unknownAuditSuspended : Option Int
  offlineSuspended : Option Int
  vettedAt : Option Int
  deriving DecidableEq

/-- reputation.UpdateRequest: one audit event plus the configuration bundle
(the node id is omitted, records are already keyed by node here). -/
structure UpdateRequest where
  auditOutcome : AuditOutcome
  auditLambda : ℚ
  auditWeight : ℚ
  auditDQ : ℚ
  suspensionGracePeriod : Int
  suspensionDQEnabled : Bool
  auditsRequiredForVetting : Int
  auditHistory : AuditHistoryConfig
  deriving DecidableEq

/-- satellitedb int64Field. -/
structure Int64Field where
  set : Bool := false
  value : Int := 0
  deriving DecidableEq

/-- satellitedb float64Field. -/
structure Float64Field where
  set : Bool := false
  value : ℚ := 0
  deriving DecidableEq

/-- satellitedb boolField. -/
structure BoolField where
  set : Bool := false
  value : Bool := false
  deriving DecidableEq

/-- satellitedb timeField; isNil means the column is to be set to NULL, and
value 0 stands for Go's zero time. -/
structure TimeField where
  set : Bool := false
  isNil : Bool := false
  value : Int := 0
  deriving DecidableEq

/-- satellitedb updateNodeStats (the NodeID field is omitted). -/
structure UpdateNodeStats where
  totalAuditCount : Int64Field := {}
  auditReputationAlpha : Float64Field := {}
  auditReputationBeta : Float64Field := {}
  unknownAuditReputationAlpha : Float64Field := {}
  unknownAuditReputationBeta : Float64Field := {}
  contained : BoolField := {}
  onlineScore : Float64Field := {}
  vettedAt : TimeField := {}
  disqualified : TimeField := {}
  unknownAuditSuspended : TimeField := {}
  lastContactSuccess : TimeField := {}
  lastContactFailure : TimeField := {}
  auditSuccessCount : Int64Field := {}
  offlineSuspended : TimeField := {}
  offlineUnderReview : TimeField := {}
  deriving DecidableEq

/-- dbx.Reputation_Update_Fields: an outer none means the column is not part
of the UPDATE statement; for nullable columns the inner Option is the new
stored value. -/
structure ReputationUpdateFields where
  vettedAt : Option Int := none
  totalAuditCount : Option Int := none
  auditReputationAlpha : Option ℚ := none
  auditReputationBeta : Option ℚ := none
  disqualified : Option Int := none
  unknownAuditReputationAlpha : Option ℚ := none
  unknownAuditReputationBeta : Option ℚ := none
  unknownAuditSuspended : Option (Option Int) := none
  auditSuccessCount : Option Int := none
  contained : Option Bool := none
  onlineScore : Option ℚ := none
  offlineSuspended : Option (Option Int) := none
  underReview : Option (Option Int) := none
  deriving DecidableEq

/-- Go time.Truncate: round t down to a multiple of d since the zero time
(and return t unchanged when d is not positive). -/
def truncate (t d : Int) : Int :=
  if d ≤ 0 then t else d * Int.fdiv t d

/-- Modelled from the spec: the Belief Updater updateReputation of the
reputation package (only its call sites are in the given sources).  Section
4.1: success gives newAlpha = lambda*alpha + w and newBeta = lambda*beta;
failure gives newAlpha = lambda*alpha and newBeta = lambda*beta + w; the
returned audit count is the prior count plus one (4.3: every non-offline
branch increments totalAuditCount by one through this return value). -/
def updateReputation (isSuccess : Bool) (alpha beta lambda w : ℚ)
    (totalCount : Int) : ℚ × ℚ × Int :=
  if isSuccess then (lambda * alpha + w, lambda * beta, totalCount + 1)
  else (lambda * alpha, lambda * beta + w, totalCount + 1)

/-- The outcome switch at the top of populateUpdateNodeStats: the new normal
pair, the new unknown pair, and the updated total audit count.  On success
the unknown pair is advanced with a second updateReputation call whose count
result is discarded; on offline only the count moves. -/
def advanceReputation (outcome : AuditOutcome)
    (auditAlpha auditBeta unknownAuditAlpha unknownAuditBeta lambda w : ℚ)
    (totalAuditCount : Int) : ℚ × ℚ × ℚ × ℚ × Int :=
  match outcome with
  | .success =>
      let r := updateReputation true auditAlpha auditBeta lambda w totalAuditCount
      let u := updateReputation true unknownAuditAlpha unknownAuditBeta lambda w totalAuditCount
      (r.1, r.2.1, u.1, u.2.1, r.2.2)
  | .failure =>
      let r := updateReputation false auditAlpha auditBeta lambda w totalAuditCount
      (r.1, r.2.1, unknownAuditAlpha, unknownAuditBeta, r.2.2)
  | .unknown =>
      let u := updateReputation false unknownAuditAlpha unknownAuditBeta lambda w totalAuditCount
      (auditAlpha, auditBeta, u.1, u.2.1, u.2.2)
  | .offline =>
      (auditAlpha, auditBeta, unknownAuditAlpha, unknownAuditBeta, totalAuditCount + 1)

/-- The leading-window deletion loop of recordAuditHistory: windows whose
start lies before earliestWindow are dropped from the front (the loop breaks
at the first retained window); the Bool is whether any window was dropped,
the contribution to windowsModified. -/
def dropStaleWindows (earliestWindow : Int) :
    List AuditWindow → List AuditWindow × Bool
  | [] => ([], false)
  | w :: ws =>
      if w.windowStart < earliestWindow then
        ((dropStaleWindows earliestWindow ws).1, true)
      else (w :: ws, false)

/-- Adding the audit to the latest window: increment its totalCount, and its
onlineCount when the observation is online. -/
def bumpLast (online : Bool) : List AuditWindow → List AuditWindow
  | [] => []
  | [w] =>
      [{ w with
          totalCount := w.totalCount + 1,
          onlineCount := w.onlineCount + (if online then 1 else 0) }]
  | w :: ws => w :: bumpLast online ws

/-- The recomputed score at the end of recordAuditHistory: the mean of
onlineCount/totalCount over every window but the last. -/
def windowedScore (ws : List AuditWindow) : ℚ :=
  ((ws.dropLast.map fun w => (w.onlineCount : ℚ) / (w.totalCount : ℚ)).sum) /
    ((ws.length : ℚ) - 1)

/-- The error message recordAuditHistory produces for an out-of-order
observation. -/
def staleObservationMessage : String :=
  "cannot add audit to audit history; window already passed"

/-- The test of recordAuditHistory for opening a fresh window: there is no
window, or the latest window's start lies strictly before the new one. -/
def newWindowNeeded (ws : List AuditWindow) (newStart : Int) : Bool :=
  match ws.getLast? with
  | none => true
  | some w => decide (w.windowStart < newStart)

/-- satellitedb recordAuditHistory. -/
def recordAuditHistory (a : AuditHistory) (auditTime : Int) (online : Bool)
    (config : AuditHistoryConfig) : Except String AuditHistory :=
  let newAuditWindowStartTime := truncate auditTime config.windowSize
  let earliestWindow := newAuditWindowStartTime - config.trackingPeriod
  let dropped := dropStaleWindows earliestWindow a.windows
  let addNew : Bool := newWindowNeeded dropped.1 newAuditWindowStartTime
  let ws1 := if addNew then dropped.1 ++ [⟨newAuditWindowStartTime, 0, 0⟩] else dropped.1
  let windowsModified := dropped.2 || addNew
  match ws1.getLast? with
  | none => Except.error staleObservationMessage
  | some latest =>
      if newAuditWindowStartTime < latest.windowStart then
        Except.error staleObservationMessage
      else
        let ws2 := bumpLast online ws1
        if windowsModified = false then Except.ok { a with windows := ws2 }
        else if ws2.length ≤ 1 then Except.ok { score := 1, windows := ws2 }
        else Except.ok { score := windowedScore ws2, windows := ws2 }

/-- satellitedb updateAuditHistoryWithTx, restricted to its pure content: the
stored history is replaced by the recorded one and the response reports the
new score and whether a full tracking period of complete windows exists.
int(TrackingPeriod.Seconds()/WindowSize.Seconds()) is Go float64 division
truncated toward zero, modelled as Int.tdiv of the duration lengths. -/
def updateAuditHistoryWithTx (history : AuditHistory) (auditTime : Int)
    (online : Bool) (config : AuditHistoryConfig) :
    Except String (AuditHistory × UpdateAuditHistoryResponse) :=
  match recordAuditHistory history auditTime online config with
  | Except.error e => Except.error e
  | Except.ok newHistory =>
      let windowsPerTrackingPeriod := Int.tdiv config.trackingPeriod config.windowSize
      Except.ok (newHistory,
        { newScore := newHistory.score,
          trackingPeriodFull :=
            decide ((newHistory.windows.length : Int) - 1 ≥ windowsPerTrackingPeriod) })

/-- The unknown-audit suspension and case-b disqualification block of
populateUpdateNodeStats (the branch on unknownAuditRep against AuditDQ).
time.Since of the prior suspension timestamp is modelled with the
transaction time now. -/
def unknownAuditStep (dbNode : Reputation) (updateReq : UpdateRequest)
    (unknownAuditRep : ℚ) (now : Int) (updateFields : UpdateNodeStats) :
    UpdateNodeStats :=
  if unknownAuditRep ≤ updateReq.auditDQ then
    let f1 :=
      if dbNode.unknownAuditSuspended = none then
        { updateFields with unknownAuditSuspended := { set := true, value := now } }
      else updateFields
    if updateReq.auditOutcome ≠ AuditOutcome.success then
      match dbNode.unknownAuditSuspended with
      | some priorSuspended =>
          if f1.unknownAuditSuspended.set = false ∧
              now - priorSuspended > updateReq.suspensionGracePeriod ∧
              updateReq.suspensionDQEnabled = true then
            { f1 with disqualified := { set := true, value := now },
                      unknownAuditSuspended := { set := true, isNil := true } }
          else f1
      | none => f1
    else f1
  else if dbNode.unknownAuditSuspended ≠ none then
    { updateFields with unknownAuditSuspended := { set := true, isNil := true } }
  else updateFields

/-- satellitedb populateUpdateNodeStats (monitoring and logging calls are
side-effect free for the record and omitted). -/
def populateUpdateNodeStats (dbNode : Reputation) (updateReq : UpdateRequest)
    (auditHistoryResponse : UpdateAuditHistoryResponse) (now : Int) :
    UpdateNodeStats :=
  let adv := advanceReputation updateReq.auditOutcome dbNode.auditReputationAlpha
    dbNode.auditReputationBeta dbNode.unknownAuditReputationAlpha
    dbNode.unknownAuditReputationBeta updateReq.auditLambda updateReq.auditWeight
    dbNode.totalAuditCount
  let auditAlpha := adv.1
  let auditBeta := adv.2.1
  let unknownAuditAlpha := adv.2.2.1
  let unknownAuditBeta := adv.2.2.2.1
  let updatedTotalAuditCount := adv.2.2.2.2
  let isUp := updateReq.auditOutcome ≠ AuditOutcome.offline
  let updateFields : UpdateNodeStats :=
    { totalAuditCount := { set := true, value := updatedTotalAuditCount },
      auditReputationAlpha := { set := true, value := auditAlpha },
      auditReputationBeta := { set := true, value := auditBeta },
      unknownAuditReputationAlpha := { set := true, value := unknownAuditAlpha },
      unknownAuditReputationBeta := { set := true, value := unknownAuditBeta },
      contained := { set := true, value := false },
      onlineScore := { set := true, value := auditHistoryResponse.newScore } }
  let updateFields :=
    if dbNode.vettedAt = none ∧ updatedTotalAuditCount ≥ updateReq.auditsRequiredForVetting then
      { updateFields with vettedAt := { set := true, value := now } }
    else updateFields
  let auditRep := auditAlpha / (auditAlpha + auditBeta)
  let updateFields :=
    if auditRep ≤ updateReq.auditDQ then
      { updateFields with disqualified := { set := true, value := now } }
    else updateFields
  let unknownAuditRep := unknownAuditAlpha / (unknownAuditAlpha + unknownAuditBeta)
  let updateFields := unknownAuditStep dbNode updateReq unknownAuditRep now updateFields
  let updateFields :=
    if isUp then { updateFields with lastContactSuccess := { set := true, value := now } }
    else { updateFields with lastContactFailure := { set := true, value := now } }
  let updateFields :=
    if updateReq.auditOutcome = AuditOutcome.success then
      { updateFields with auditSuccessCount := { set := true, value := dbNode.auditSuccessCount + 1 } }
    else updateFields
  if updateReq.auditHistory.offlineSuspensionEnabled = false then
    let f1 :=
      if dbNode.offlineSuspended ≠ none then
        { updateFields with offlineSuspended := { set := true, isNil := true } }
      else updateFields
    if dbNode.underReview ≠ none then
      { f1 with offlineUnderReview := { set := true, isNil := true } }
    else f1
  else
    let penalizeOfflineNode : Bool :=
      decide (auditHistoryResponse.newScore < updateReq.auditHistory.offlineThreshold) &&
        auditHistoryResponse.trackingPeriodFull
    match dbNode.underReview with
    | some underReview =>
        let f1 :=
          if penalizeOfflineNode = false ∧ dbNode.offlineSuspended ≠ none then
            { updateFields with offlineSuspended := { set := true, isNil := true } }
          else if penalizeOfflineNode = true ∧ dbNode.offlineSuspended = none then
            { updateFields with offlineSuspended := { set := true, value := now } }
          else updateFields
        let gracePeriodEnd := underReview + updateReq.auditHistory.gracePeriod
        let trackingPeriodEnd := gracePeriodEnd + updateReq.auditHistory.trackingPeriod
        let trackingPeriodPassed := now > trackingPeriodEnd
        if trackingPeriodPassed then
          if penalizeOfflineNode = true then
            if updateReq.auditHistory.offlineDQEnabled = true then
              { f1 with disqualified := { set := true, value := now } }
            else f1
          else
            { f1 with offlineUnderReview := { set := true, isNil := true },
                      offlineSuspended := { set := true, isNil := true } }
        else f1
    | none =>
        if penalizeOfflineNode = true then
          { updateFields with offlineUnderReview := { set := true, value := now },
                              offlineSuspended := { set := true, value := now } }
        else updateFields

/-- satellitedb populateUpdateFields: the computed stats become the dbx
update-field set.  Note that lastContactSuccess and lastContactFailure are
never copied into it, and that the audit success counter is written a second
time, unconditionally, on a success outcome, exactly as in the source. -/
def populateUpdateFields (dbNode : Reputation) (updateReq : UpdateRequest)
    (auditHistoryResponse : UpdateAuditHistoryResponse) (now : Int) :
    ReputationUpdateFields :=
  let update := populateUpdateNodeStats dbNode updateReq auditHistoryResponse now
  let f : ReputationUpdateFields := {}
  let f := if update.vettedAt.set then { f with vettedAt := some update.vettedAt.value } else f
  let f := if update.totalAuditCount.set then { f with totalAuditCount := some update.totalAuditCount.value } else f
  let f := if update.auditReputationAlpha.set then { f with auditReputationAlpha := some update.auditReputationAlpha.value } else f
  let f := if update.auditReputationBeta.set then { f with auditReputationBeta := some update.auditReputationBeta.value } else f
  let f := if update.disqualified.set then { f with disqualified := some update.disqualified.value } else f
  let f := if update.unknownAuditReputationAlpha.set then { f with unknownAuditReputationAlpha := some update.unknownAuditReputationAlpha.value } else f
  let f := if update.unknownAuditReputationBeta.set then { f with unknownAuditReputationBeta := some update.unknownAuditReputationBeta.value } else f
  let f :=
    if update.unknownAuditSuspended.set then
      if update.unknownAuditSuspended.isNil then { f with unknownAuditSuspended := some none }
      else { f with unknownAuditSuspended := some (some update.unknownAuditSuspended.value) }
    else f
  let f := if update.auditSuccessCount.set then { f with auditSuccessCount := some update.auditSuccessCount.value } else f
  let f := if update.contained.set then { f with contained := some update.contained.value } else f
  let f :=
    if updateReq.auditOutcome = AuditOutcome.success then
      { f with auditSuccessCount := some (dbNode.auditSuccessCount + 1) }
    else f
  let f := if update.onlineScore.set then { f with onlineScore := some update.onlineScore.value } else f
  let f :=
    if update.offlineSuspended.set then
      if update.offlineSuspended.isNil then { f with offlineSuspended := some none }
      else { f with offlineSuspended := some (some update.offlineSuspended.value) }
    else f
  let f :=
    if update.offlineUnderReview.set then
      if update.offlineUnderReview.isNil then { f with underReview := some none }
      else { f with underReview := some (some update.offlineUnderReview.value) }
    else f
  f

/-- Applying a dbx UPDATE to the stored row: the listed columns take their
new value, every other column keeps its stored value. -/
def applyUpdateFields (rep : Reputation) (f : ReputationUpdateFields) : Reputation :=
  { rep with
    vettedAt := match f.vettedAt with | some v => some v | none => rep.vettedAt,
    totalAuditCount := f.totalAuditCount.getD rep.totalAuditCount,
    auditReputationAlpha := f.auditReputationAlpha.getD rep.auditReputationAlpha,
    auditReputationBeta := f.auditReputationBeta.getD rep.auditReputationBeta,
    disqualified := match f.disqualified with | some v => some v | none => rep.disqualified,
    unknownAuditReputationAlpha := f.unknownAuditReputationAlpha.getD rep.unknownAuditReputationAlpha,
    unknownAuditReputationBeta := f.unknownAuditReputationBeta.getD rep.unknownAuditReputationBeta,
    unknownAuditSuspended := f.unknownAuditSuspended.getD rep.unknownAuditSuspended,
    auditSuccessCount := f.auditSuccessCount.getD rep.auditSuccessCount,
    contained := f.contained.getD rep.contained,
    onlineScore := f.onlineScore.getD rep.onlineScore,
    offlineSuspended := f.offlineSuspended.getD rep.offlineSuspended,
    underReview := f.underReview.getD rep.underReview }

/-- satellitedb getNodeStatus. -/
def getNodeStatus (dbNode : Reputation) : ReputationStatus :=
  { contained := dbNode.contained,
    vettedAt := dbNode.vettedAt,
    disqualified := dbNode.disqualified,
    unknownAuditSuspended := dbNode.unknownAuditSuspended,
    offlineSuspended := dbNode.offlineSuspended }

/-- The Go zero value of overlay.ReputationStatus: the state of the oldStatus
variable whenever the disqualified early return is taken before it is
assigned. -/
def zeroReputationStatus : ReputationStatus :=
  { contained := false, disqualified := none, unknownAuditSuspended := none,
    offlineSuspended := none, vettedAt := none }

/-- Result of one reputations.Update call: the stored records after commit,
the returned status, and the changed flag. -/
structure UpdateResult where
  reputation : Reputation
  history : AuditHistory
  status : ReputationStatus
  changed : Bool
  deriving DecidableEq

/-- The new Reputation row produced by one processed update:
populateUpdateFields applied to the stored row. -/
def reputationAfterUpdate (dbNode : Reputation) (updateReq : UpdateRequest)
    (auditHistoryResponse : UpdateAuditHistoryResponse) (now : Int) : Reputation :=
  applyUpdateFields dbNode (populateUpdateFields dbNode updateReq auditHistoryResponse now)

/-- satellitedb reputations.Update over the already loaded pair of records of
an existing node (the upsert-on-miss step precedes this and is not needed
here).  When disqualified is already set the transaction body returns early:
the rows stay untouched and oldStatus keeps its zero value.  An error from
the audit-history step aborts the transaction, so no state accompanies it. -/
def Update (dbNode : Reputation) (history : AuditHistory)
    (updateReq : UpdateRequest) (now : Int) : Except String UpdateResult :=
  if dbNode.disqualified ≠ none then
    Except.ok { reputation := dbNode, history := history,
                status := getNodeStatus dbNode,
                changed := !(decide (zeroReputationStatus = getNodeStatus dbNode)) }
  else
    let oldStatus := getNodeStatus dbNode
    let isUp : Bool := decide (updateReq.auditOutcome ≠ AuditOutcome.offline)
    match updateAuditHistoryWithTx history now isUp updateReq.auditHistory with
    | Except.error e => Except.error e
    | Except.ok res =>
        let newNode := reputationAfterUpdate dbNode updateReq res.2 now
        Except.ok { reputation := newNode, history := res.1,
                    status := getNodeStatus newNode,
                    changed := !(decide (oldStatus = getNodeStatus newNode)) }

/- Helper lemmas: tracking single fields through the update pipeline. -/

theorem advance_count (outcome : AuditOutcome) (a b ua ub l w : ℚ) (c : Int) :
    (advanceReputation outcome a b ua ub l w c).2.2.2.2 = c + 1 := by
  cases outcome <;> simp [advanceReputation, updateReputation]

theorem populate_totalAuditCount (dbNode : Reputation) (req : UpdateRequest)
    (resp : UpdateAuditHistoryResponse) (now : Int) :
    (populateUpdateNodeStats dbNode req resp now).totalAuditCount =
      { set := true, value := dbNode.totalAuditCount + 1 } := by
  cases hu : dbNode.unknownAuditSuspended <;> cases hr : dbNode.underReview <;>
    simp [populateUpdateNodeStats, unknownAuditStep, hu, hr, advance_count,
      apply_ite (fun s : UpdateNodeStats => s.totalAuditCount)]

theorem populate_vettedAt (dbNode : Reputation) (req : UpdateRequest)
    (resp : UpdateAuditHistoryResponse) (now : Int) :
    (populateUpdateNodeStats dbNode req resp now).vettedAt =
      (if dbNode.vettedAt = none ∧ dbNode.totalAuditCount + 1 ≥ req.auditsRequiredForVetting then
        { set := true, value := now } else {}) := by
  cases hu : dbNode.unknownAuditSuspended <;> cases hr : dbNode.underReview <;>
    simp [populateUpdateNodeStats, unknownAuditStep, hu, hr, advance_count,
      apply_ite (fun s : UpdateNodeStats => s.vettedAt)]

theorem pufields_vettedAt (dbNode : Reputation) (req : UpdateRequest)
    (resp : UpdateAuditHistoryResponse) (now : Int) :
    (populateUpdateFields dbNode req resp now).vettedAt =
      (if (populateUpdateNodeStats dbNode req resp now).vettedAt.set then
        some (populateUpdateNodeStats dbNode req resp now).vettedAt.value else none) := by
  simp [populateUpdateFields,
    apply_ite (fun f : ReputationUpdateFields => f.vettedAt)]

theorem after_vettedAt (dbNode : Reputation) (req : UpdateRequest)
    (resp : UpdateAuditHistoryResponse) (now : Int) :
    (reputationAfterUpdate dbNode req resp now).vettedAt =
      (if (populateUpdateNodeStats dbNode req resp now).vettedAt.set then
        some (populateUpdateNodeStats dbNode req resp now).vettedAt.value else dbNode.vettedAt) := by
  rw [reputationAfterUpdate]
  simp only [applyUpdateFields, pufields_vettedAt]
  cases hset : (populateUpdateNodeStats dbNode req resp now).vettedAt.set <;> simp [hset]

theorem pufields_disqualified (dbNode : Reputation) (req : UpdateRequest)
    (resp : UpdateAuditHistoryResponse) (now : Int) :
    (populateUpdateFields dbNode req resp now).disqualified =
      (if (populateUpdateNodeStats dbNode req resp now).disqualified.set then
        some (populateUpdateNodeStats dbNode req resp now).disqualified.value else none) := by
  simp [populateUpdateFields,
    apply_ite (fun f : ReputationUpdateFields => f.disqualified)]

theorem after_disqualified (dbNode : Reputation) (req : UpdateRequest)
    (resp : UpdateAuditHistoryResponse) (now : Int) :
    (reputationAfterUpdate dbNode req resp now).disqualified =
      (if (populateUpdateNodeStats dbNode req resp now).disqualified.set then
        some (populateUpdateNodeStats dbNode req resp now).disqualified.value
       else dbNode.disqualified) := by
  rw [reputationAfterUpdate]
  simp only [applyUpdateFields, pufields_disqualified]
  cases hset : (populateUpdateNodeStats dbNode req resp now).disqualified.set <;> simp [hset]

theorem pufields_unknownAuditSuspended (dbNode : Reputation) (req : UpdateRequest)
    (resp : UpdateAuditHistoryResponse) (now : Int) :
    (populateUpdateFields dbNode req resp now).unknownAuditSuspended =
      (if (populateUpdateNodeStats dbNode req resp now).unknownAuditSuspended.set then
        (if (populateUpdateNodeStats dbNode req resp now).unknownAuditSuspended.isNil then some none
         else some (some (populateUpdateNodeStats dbNode req resp now).unknownAuditSuspended.value))
       else none) := by
  simp [populateUpdateFields,
    apply_ite (fun f : ReputationUpdateFields => f.unknownAuditSuspended)]

theorem after_unknownAuditSuspended (dbNode : Reputation) (req : UpdateRequest)
    (resp : UpdateAuditHistoryResponse) (now : Int) :
    (reputationAfterUpdate dbNode req resp now).unknownAuditSuspended =
      (if (populateUpdateNodeStats dbNode req resp now).unknownAuditSuspended.set then
        (if (populateUpdateNodeStats dbNode req resp now).unknownAuditSuspended.isNil then none
         else some (populateUpdateNodeStats dbNode req resp now).unknownAuditSuspended.value)
       else dbNode.unknownAuditSuspended) := by
  rw [reputationAfterUpdate]
  simp only [applyUpdateFields, pufields_unknownAuditSuspended]
  cases hset : (populateUpdateNodeStats dbNode req resp now).unknownAuditSuspended.set <;>
    cases hnil : (populateUpdateNodeStats dbNode req resp now).unknownAuditSuspended.isNil <;>
      simp [hset, hnil]

theorem pufields_offlineSuspended (dbNode : Reputation) (req : UpdateRequest)
    (resp : UpdateAuditHistoryResponse) (now : Int) :
    (populateUpdateFields dbNode req resp now).offlineSuspended =
      (if (populateUpdateNodeStats dbNode req resp now).offlineSuspended.set then
        (if (populateUpdateNodeStats dbNode req resp now).offlineSuspended.isNil then some none
         else some (some (populateUpdateNodeStats dbNode req resp now).offlineSuspended.value))
       else none) := by
  simp [populateUpdateFields,
    apply_ite (fun f : ReputationUpdateFields => f.offlineSuspended)]

theorem after_offlineSuspended (dbNode : Reputation) (req : UpdateRequest)
    (resp : UpdateAuditHistoryResponse) (now : Int) :
    (reputationAfterUpdate dbNode req resp now).offlineSuspended =
      (if (populateUpdateNodeStats dbNode req resp now).offlineSuspended.set then
        (if (populateUpdateNodeStats dbNode req resp now).offlineSuspended.isNil then none
         else some (populateUpdateNodeStats dbNode req resp now).offlineSuspended.value)
       else dbNode.offlineSuspended) := by
  rw [reputationAfterUpdate]
  simp only [applyUpdateFields, pufields_offlineSuspended]
  cases hset : (populateUpdateNodeStats dbNode req resp now).offlineSuspended.set <;>
    cases hnil : (populateUpdateNodeStats dbNode req resp now).offlineSuspended.isNil <;>
      simp [hset, hnil]

theorem pufields_underReview (dbNode : Reputation) (req : UpdateRequest)
    (resp : UpdateAuditHistoryResponse) (now : Int) :
    (populateUpdateFields dbNode req resp now).underReview =
      (if (populateUpdateNodeStats dbNode req resp now).offlineUnderReview.set then
        (if (populateUpdateNodeStats dbNode req resp now).offlineUnderReview.isNil then some none
         else some (some (populateUpdateNodeStats dbNode req resp now).offlineUnderReview.value))
       else none) := by
  simp [populateUpdateFields,
    apply_ite (fun f : ReputationUpdateFields => f.underReview)]

theorem after_underReview (dbNode : Reputation) (req : UpdateRequest)
    (resp : UpdateAuditHistoryResponse) (now : Int) :
    (reputationAfterUpdate dbNode req resp now).underReview =
      (if (populateUpdateNodeStats dbNode req resp now).offlineUnderReview.set then
        (if (populateUpdateNodeStats dbNode req resp now).offlineUnderReview.isNil then none
         else some (populateUpdateNodeStats dbNode req resp now).offlineUnderReview.value)
       else dbNode.underReview) := by
  rw [reputationAfterUpdate]
  simp only [applyUpdateFields, pufields_underReview]
  cases hset : (populateUpdateNodeStats dbNode req resp now).offlineUnderReview.set <;>
    cases hnil : (populateUpdateNodeStats dbNode req resp now).offlineUnderReview.isNil <;>
      simp [hset, hnil]

/- List-level lemmas about the audit-history helpers. -/

theorem dropStale_cons (e : Int) (w : AuditWindow) (ws : List AuditWindow) :
    dropStaleWindows e (w :: ws) =
      if w.windowStart < e then ((dropStaleWindows e ws).1, true) else (w :: ws, false) := rfl

theorem bumpLast_cons_ne_nil (online : Bool) (u : AuditWindow) (us : List AuditWindow) :
    bumpLast online (u :: us) ≠ [] := by
  cases us <;> simp [bumpLast]

theorem dropStale_getLast (e : Int) (ws : List AuditWindow) :
    (dropStaleWindows e ws).1 = [] ∨ (dropStaleWindows e ws).1.getLast? = ws.getLast? := by
  induction ws with
  | nil => exact Or.inl rfl
  | cons w ws ih =>
      by_cases h : w.windowStart < e
      · rcases ih with h1 | h1
        · exact Or.inl (by rw [dropStale_cons, if_pos h]; exact h1)
        · cases ws with
          | nil =>
              exact Or.inl (by rw [dropStale_cons, if_pos h]; rfl)
          | cons v vs =>
              right
              rw [dropStale_cons, if_pos h]
              show (dropStaleWindows e (v :: vs)).1.getLast? = (w :: v :: vs).getLast?
              rw [h1, List.getLast?_cons_cons]
      · exact Or.inr (by rw [dropStale_cons, if_neg h])

theorem dropStale_nil_last (e : Int) : ∀ (ws : List AuditWindow) (w : AuditWindow),
    ws.getLast? = some w → (dropStaleWindows e ws).1 = [] → w.windowStart < e := by
  intro ws
  induction ws with
  | nil => intro w hlast _; simp at hlast
  | cons v vs ih =>
      intro w hlast hnil
      rw [dropStale_cons] at hnil
      by_cases h : v.windowStart < e
      · rw [if_pos h] at hnil
        cases vs with
        | nil =>
            simp [List.getLast?] at hlast
            subst hlast; exact h
        | cons u us =>
            exact ih w (by rwa [List.getLast?_cons_cons] at hlast) hnil
      · rw [if_neg h] at hnil
        simp at hnil

theorem bumpLast_getLast (online : Bool) : ∀ (ws : List AuditWindow) (w : AuditWindow),
    ws.getLast? = some w →
    (bumpLast online ws).getLast? = some { w with
      totalCount := w.totalCount + 1,
      onlineCount := w.onlineCount + (if online then 1 else 0) } := by
  intro ws
  induction ws with
  | nil => intro w hlast; simp at hlast
  | cons v vs ih =>
      intro w hlast
      cases vs with
      | nil =>
          simp [List.getLast?] at hlast
          subst hlast
          simp [bumpLast]
      | cons u us =>
          rw [List.getLast?_cons_cons] at hlast
          have h2 := ih w hlast
          rw [show bumpLast online (v :: u :: us) = v :: bumpLast online (u :: us) from rfl]
          rw [← h2]
          cases hb : bumpLast online (u :: us) with
          | nil => exact absurd hb (bumpLast_cons_ne_nil online u us)
          | cons q qs => rw [List.getLast?_cons_cons]

theorem bumpLast_length (online : Bool) : ∀ ws : List AuditWindow,
    (bumpLast online ws).length = ws.length := by
  intro ws
  induction ws with
  | nil => rfl
  | cons v vs ih =>
      cases vs with
      | nil => rfl
      | cons u us =>
          rw [show bumpLast online (v :: u :: us) = v :: bumpLast online (u :: us) from rfl]
          simp only [List.length_cons, ih]

theorem bumpLast_dropLast (online : Bool) : ∀ ws : List AuditWindow,
    (bumpLast online ws).dropLast = ws.dropLast := by
  intro ws
  induction ws with
  | nil => rfl
  | cons v vs ih =>
      cases vs with
      | nil => rfl
      | cons u us =>
          rw [show bumpLast online (v :: u :: us) = v :: bumpLast online (u :: us) from rfl]
          cases hb : bumpLast online (u :: us) with
          | nil => exact absurd hb (bumpLast_cons_ne_nil online u us)
          | cons q qs =>
              rw [← hb, List.dropLast_cons₂, ← ih, hb, List.dropLast_cons₂]

theorem populate_auditAlpha (dbNode : Reputation) (req : UpdateRequest)
    (resp : UpdateAuditHistoryResponse) (now : Int) :
    (populateUpdateNodeStats dbNode req resp now).auditReputationAlpha =
      { set := true,
        value := (advanceReputation req.auditOutcome dbNode.auditReputationAlpha
          dbNode.auditReputationBeta dbNode.unknownAuditReputationAlpha
          dbNode.unknownAuditReputationBeta req.auditLambda req.auditWeight
          dbNode.totalAuditCount).1 } := by
  cases hu : dbNode.unknownAuditSuspended <;> cases hr : dbNode.underReview <;>
    simp [populateUpdateNodeStats, unknownAuditStep, hu, hr,
      apply_ite (fun s : UpdateNodeStats => s.auditReputationAlpha)]

theorem populate_auditBeta (dbNode : Reputation) (req : UpdateRequest)
    (resp : UpdateAuditHistoryResponse) (now : Int) :
    (populateUpdateNodeStats dbNode req resp now).auditReputationBeta =
      { set := true,
        value := (advanceReputation req.auditOutcome dbNode.auditReputationAlpha
          dbNode.auditReputationBeta dbNode.unknownAuditReputationAlpha
          dbNode.unknownAuditReputationBeta req.auditLambda req.auditWeight
          dbNode.totalAuditCount).2.1 } := by
  cases hu : dbNode.unknownAuditSuspended <;> cases hr : dbNode.underReview <;>
    simp [populateUpdateNodeStats, unknownAuditStep, hu, hr,
      apply_ite (fun s : UpdateNodeStats => s.auditReputationBeta)]

theorem populate_unknownAlpha (dbNode : Reputation) (req : UpdateRequest)
    (resp : UpdateAuditHistoryResponse) (now : Int) :
    (populateUpdateNodeStats dbNode req resp now).unknownAuditReputationAlpha =
      { set := true,
        value := (advanceReputation req.auditOutcome dbNode.auditReputationAlpha
          dbNode.auditReputationBeta dbNode.unknownAuditReputationAlpha
          dbNode.unknownAuditReputationBeta req.auditLambda req.auditWeight
          dbNode.totalAuditCount).2.2.1 } := by
  cases hu : dbNode.unknownAuditSuspended <;> cases hr : dbNode.underReview <;>
    simp [populateUpdateNodeStats, unknownAuditStep, hu, hr,
      apply_ite (fun s : UpdateNodeStats => s.unknownAuditReputationAlpha)]

theorem populate_unknownBeta (dbNode : Reputation) (req : UpdateRequest)
    (resp : UpdateAuditHistoryResponse) (now : Int) :
    (populateUpdateNodeStats dbNode req resp now).unknownAuditReputationBeta =
      { set := true,
        value := (advanceReputation req.auditOutcome dbNode.auditReputationAlpha
          dbNode.auditReputationBeta dbNode.unknownAuditReputationAlpha
          dbNode.unknownAuditReputationBeta req.auditLambda req.auditWeight
          dbNode.totalAuditCount).2.2.2.1 } := by
  cases hu : dbNode.unknownAuditSuspended <;> cases hr : dbNode.underReview <;>
    simp [populateUpdateNodeStats, unknownAuditStep, hu, hr,
      apply_ite (fun s : UpdateNodeStats => s.unknownAuditReputationBeta)]

/-- C3: every processed update advances the belief parameters by outcome:
Offline touches no alpha/beta and only increments totalAuditCount; Success
applies the belief update with isSuccess true to both pairs; Failure applies
it with isSuccess false to the normal pair only; Unknown with isSuccess
false to the unknown pair only; and totalAuditCount rises by exactly one in
all four branches. -/
theorem c3_belief_update (dbNode : Reputation) (req : UpdateRequest)
    (resp : UpdateAuditHistoryResponse) (now : Int) :
    (populateUpdateNodeStats dbNode req resp now).totalAuditCount =
      { set := true, value := dbNode.totalAuditCount + 1 } ∧
    (req.auditOutcome = AuditOutcome.offline →
      (populateUpdateNodeStats dbNode req resp now).auditReputationAlpha =
        { set := true, value := dbNode.auditReputationAlpha } ∧
      (populateUpdateNodeStats dbNode req resp now).auditReputationBeta =
        { set := true, value := dbNode.auditReputationBeta } ∧
      (populateUpdateNodeStats dbNode req resp now).unknownAuditReputationAlpha =
        { set := true, value := dbNode.unknownAuditReputationAlpha } ∧
      (populateUpdateNodeStats dbNode req resp now).unknownAuditReputationBeta =
        { set := true, value := dbNode.unknownAuditReputationBeta }) ∧
    (req.auditOutcome = AuditOutcome.success →
      (populateUpdateNodeStats dbNode req resp now).auditReputationAlpha =
        { set := true, value := req.auditLambda * dbNode.auditReputationAlpha + req.auditWeight } ∧
      (populateUpdateNodeStats dbNode req resp now).auditReputationBeta =
        { set := true, value := req.auditLambda * dbNode.auditReputationBeta } ∧
      (populateUpdateNodeStats dbNode req resp now).unknownAuditReputationAlpha =
        { set := true, value := req.auditLambda * dbNode.unknownAuditReputationAlpha + req.auditWeight } ∧
      (populateUpdateNodeStats dbNode req resp now).unknownAuditReputationBeta =
        { set := true, value := req.auditLambda * dbNode.unknownAuditReputationBeta }) ∧
    (req.auditOutcome = AuditOutcome.failure →
      (populateUpdateNodeStats dbNode req resp now).auditReputationAlpha =
        { set := true, value := req.auditLambda * dbNode.auditReputationAlpha } ∧
      (populateUpdateNodeStats dbNode req resp now).auditReputationBeta =
        { set := true, value := req.auditLambda * dbNode.auditReputationBeta + req.auditWeight } ∧
      (populateUpdateNodeStats dbNode req resp now).unknownAuditReputationAlpha =
        { set := true, value := dbNode.unknownAuditReputationAlpha } ∧
      (populateUpdateNodeStats dbNode req resp now).unknownAuditReputationBeta =
        { set := true, value := dbNode.unknownAuditReputationBeta }) ∧
    (req.auditOutcome = AuditOutcome.unknown →
      (populateUpdateNodeStats dbNode req resp now).auditReputationAlpha =
        { set := true, value := dbNode.auditReputationAlpha } ∧
      (populateUpdateNodeStats dbNode req resp now).auditReputationBeta =
        { set := true, value := dbNode.auditReputationBeta } ∧
      (populateUpdateNodeStats dbNode req resp now).unknownAuditReputationAlpha =
        { set := true, value := req.auditLambda * dbNode.unknownAuditReputationAlpha } ∧
      (populateUpdateNodeStats dbNode req resp now).unknownAuditReputationBeta =
        { set := true, value := req.auditLambda * dbNode.unknownAuditReputationBeta + req.auditWeight }) := by
  refine ⟨populate_totalAuditCount dbNode req resp now, ?_, ?_, ?_, ?_⟩ <;>
    intro h <;>
    simp [populate_auditAlpha, populate_auditBeta, populate_unknownAlpha,
      populate_unknownBeta, advanceReputation, updateReputation, h]

def exampleConfig : AuditHistoryConfig :=
  { windowSize := 1, trackingPeriod := 4, gracePeriod := 1,
    offlineThreshold := 6/10, offlineDQEnabled := true,
    offlineSuspensionEnabled := true }

def baseNode : Reputation :=
  { auditSuccessCount := 3, totalAuditCount := 5, vettedAt := none,
    contained := false, disqualified := none, suspended := none,
    unknownAuditSuspended := none, offlineSuspended := none,
    underReview := none, onlineScore := 1,
    auditReputationAlpha := 1, auditReputationBeta := 0,
    unknownAuditReputationAlpha := 1, unknownAuditReputationBeta := 0 }

def baseRequest : UpdateRequest :=
  { auditOutcome := AuditOutcome.success, auditLambda := 95/100,
    auditWeight := 1, auditDQ := 6/10, suspensionGracePeriod := 10,
    suspensionDQEnabled := true, auditsRequiredForVetting := 100,
    auditHistory := exampleConfig }

def baseResponse : UpdateAuditHistoryResponse :=
  { newScore := 1, trackingPeriodFull := false }

/-- Witness for C3 at concrete inputs, one per outcome branch. -/
theorem c3_witness :
    (populateUpdateNodeStats baseNode
      { baseRequest with auditOutcome := AuditOutcome.offline } baseResponse 100).totalAuditCount =
      { set := true, value := 6 } ∧
    (populateUpdateNodeStats baseNode baseRequest baseResponse 100).auditReputationAlpha =
      { set := true, value := 39/20 } ∧
    (populateUpdateNodeStats baseNode
      { baseRequest with auditOutcome := AuditOutcome.failure } baseResponse 100).auditReputationBeta =
      { set := true, value := 1 } ∧
    (populateUpdateNodeStats baseNode
      { baseRequest with auditOutcome := AuditOutcome.unknown } baseResponse 100).unknownAuditReputationBeta =
      { set := true, value := 1 } := by
  refine ⟨?_, ?_, ?_, ?_⟩
  · rw [(c3_belief_update baseNode
      { baseRequest with auditOutcome := AuditOutcome.offline } baseResponse 100).1]
    norm_num [baseNode]
  · rw [((c3_belief_update baseNode baseRequest baseResponse 100).2.2.1 rfl).1]
    norm_num [baseNode, baseRequest]
  · rw [((c3_belief_update baseNode
      { baseRequest with auditOutcome := AuditOutcome.failure } baseResponse 100).2.2.2.1 rfl).2.1]
    norm_num [baseNode, baseRequest]
  · rw [((c3_belief_update baseNode
      { baseRequest with auditOutcome := AuditOutcome.unknown } baseResponse 100).2.2.2.2 rfl).2.2.2]
    norm_num [baseNode, baseRequest]

/-- C8: vettedAt is written exactly at an update whose new totalAuditCount
(the prior count plus one) reaches auditsRequiredForVetting while vettedAt
is still null, and an already set vettedAt is never changed or cleared. -/
theorem c8_vetting (dbNode : Reputation) (req : UpdateRequest)
    (resp : UpdateAuditHistoryResponse) (now : Int) :
    (∀ t, dbNode.vettedAt = some t →
      (reputationAfterUpdate dbNode req resp now).vettedAt = some t) ∧
    (dbNode.vettedAt = none →
      (reputationAfterUpdate dbNode req resp now).vettedAt =
        (if dbNode.totalAuditCount + 1 ≥ req.auditsRequiredForVetting then some now else none)) := by
  constructor
  · intro t ht
    rw [after_vettedAt, populate_vettedAt]
    simp [ht]
  · intro h0
    rw [after_vettedAt, populate_vettedAt]
    by_cases hc : dbNode.totalAuditCount + 1 ≥ req.auditsRequiredForVetting <;>
      simp [h0, hc]

/-- Witness for C8: an already vetted node keeps its timestamp, and a node
one audit short of the threshold becomes vetted now. -/
theorem c8_witness :
    (reputationAfterUpdate { baseNode with vettedAt := some 4 } baseRequest baseResponse 100).vettedAt = some 4 ∧
    (reputationAfterUpdate { baseNode with totalAuditCount := 99 } baseRequest baseResponse 100).vettedAt = some 100 := by
  constructor
  · exact (c8_vetting { baseNode with vettedAt := some 4 } baseRequest baseResponse 100).1 4 rfl
  · rw [(c8_vetting { baseNode with totalAuditCount := 99 } baseRequest baseResponse 100).2 rfl]
    norm_num [baseNode, baseRequest]

/-- C6: after the belief update, an unknown-audit reputation at or below
auditDQThreshold suspends a not-yet-suspended node at now, and an
unknown-audit reputation above the threshold lifts an existing suspension. -/
theorem c6_unknown_suspension (dbNode : Reputation) (req : UpdateRequest)
    (resp : UpdateAuditHistoryResponse) (now : Int) :
    ((advanceReputation req.auditOutcome dbNode.auditReputationAlpha
        dbNode.auditReputationBeta dbNode.unknownAuditReputationAlpha
        dbNode.unknownAuditReputationBeta req.auditLambda req.auditWeight
        dbNode.totalAuditCount).2.2.1 /
      ((advanceReputation req.auditOutcome dbNode.auditReputationAlpha
        dbNode.auditReputationBeta dbNode.unknownAuditReputationAlpha
        dbNode.unknownAuditReputationBeta req.auditLambda req.auditWeight
        dbNode.totalAuditCount).2.2.1 +
       (advanceReputation req.auditOutcome dbNode.auditReputationAlpha
        dbNode.auditReputationBeta dbNode.unknownAuditReputationAlpha
        dbNode.unknownAuditReputationBeta req.auditLambda req.auditWeight
        dbNode.totalAuditCount).2.2.2.1) ≤ req.auditDQ →
      dbNode.unknownAuditSuspended = none →
      (populateUpdateNodeStats dbNode req resp now).unknownAuditSuspended =
        { set := true, value := now }) ∧
    (req.auditDQ <
      (advanceReputation req.auditOutcome dbNode.auditReputationAlpha
        dbNode.auditReputationBeta dbNode.unknownAuditReputationAlpha
        dbNode.unknownAuditReputationBeta req.auditLambda req.auditWeight
        dbNode.totalAuditCount).2.2.1 /
      ((advanceReputation req.auditOutcome dbNode.auditReputationAlpha
        dbNode.auditReputationBeta dbNode.unknownAuditReputationAlpha
        dbNode.unknownAuditReputationBeta req.auditLambda req.auditWeight
        dbNode.totalAuditCount).2.2.1 +
       (advanceReputation req.auditOutcome dbNode.auditReputationAlpha
        dbNode.auditReputationBeta dbNode.unknownAuditReputationAlpha
        dbNode.unknownAuditReputationBeta req.auditLambda req.auditWeight
        dbNode.totalAuditCount).2.2.2.1) →
      dbNode.unknownAuditSuspended ≠ none →
      (populateUpdateNodeStats dbNode req resp now).unknownAuditSuspended =
        { set := true, isNil := true }) := by
  constructor
  · intro hle hnone
    cases hr : dbNode.underReview <;>
      simp [populateUpdateNodeStats, unknownAuditStep, hnone, hr, hle,
        apply_ite (fun s : UpdateNodeStats => s.unknownAuditSuspended)]
  · intro hgt hsome
    cases hu : dbNode.unknownAuditSuspended with
    | none => exact absurd hu hsome
    | some t =>
        cases hr : dbNode.underReview <;>
          simp [populateUpdateNodeStats, unknownAuditStep, hu, hr, not_le.mpr hgt,
            apply_ite (fun s : UpdateNodeStats => s.unknownAuditSuspended)]

/-- Witness for C6: an Unknown outcome drives the unknown reputation to 1/2
and suspends the node; a Success outcome on a suspended node lifts the
suspension. -/
theorem c6_witness :
    (populateUpdateNodeStats baseNode
      { baseRequest with auditOutcome := AuditOutcome.unknown, auditLambda := 1 }
      baseResponse 100).unknownAuditSuspended = { set := true, value := 100 } ∧
    (populateUpdateNodeStats { baseNode with unknownAuditSuspended := some 0 }
      baseRequest baseResponse 100).unknownAuditSuspended =
      { set := true, isNil := true } := by
  constructor
  · exact (c6_unknown_suspension baseNode
      { baseRequest with auditOutcome := AuditOutcome.unknown, auditLambda := 1 }
      baseResponse 100).1
      (by norm_num [advanceReputation, updateReputation, baseNode, baseRequest]) rfl
  · exact (c6_unknown_suspension { baseNode with unknownAuditSuspended := some 0 }
      baseRequest baseResponse 100).2
      (by norm_num [advanceReputation, updateReputation, baseNode, baseRequest])
      (by simp)

/-- C2 (amended): the grace-period (case b) disqualification of the
unknown-audit block fires exactly when the post-update unknown reputation is
at or below auditDQThreshold, the node was already suspended before this
call (a node newly suspended in this call never fires it), the outcome is
not Success, SuspensionDQEnabled holds, and now minus the prior suspension
timestamp exceeds suspensionGracePeriod; it then sets disqualified to now
and clears unknownAuditSuspended. -/
theorem c2_grace_period_dq :
    (∀ (dbNode : Reputation) (req : UpdateRequest) (unknownAuditRep : ℚ)
        (now : Int) (fields : UpdateNodeStats),
      fields.unknownAuditSuspended.set = false →
      fields.disqualified.set = false →
      ((unknownAuditStep dbNode req unknownAuditRep now fields).disqualified.set = true ↔
        (unknownAuditRep ≤ req.auditDQ ∧ req.auditOutcome ≠ AuditOutcome.success ∧
          req.suspensionDQEnabled = true ∧
          ∃ t, dbNode.unknownAuditSuspended = some t ∧
            now - t > req.suspensionGracePeriod))) ∧
    (∀ (dbNode : Reputation) (req : UpdateRequest)
        (resp : UpdateAuditHistoryResponse) (now t : Int),
      dbNode.unknownAuditSuspended = some t →
      req.auditOutcome ≠ AuditOutcome.success →
      req.suspensionDQEnabled = true →
      now - t > req.suspensionGracePeriod →
      (advanceReputation req.auditOutcome dbNode.auditReputationAlpha
        dbNode.auditReputationBeta dbNode.unknownAuditReputationAlpha
        dbNode.unknownAuditReputationBeta req.auditLambda req.auditWeight
        dbNode.totalAuditCount).2.2.1 /
      ((advanceReputation req.auditOutcome dbNode.auditReputationAlpha
        dbNode.auditReputationBeta dbNode.unknownAuditReputationAlpha
        dbNode.unknownAuditReputationBeta req.auditLambda req.auditWeight
        dbNode.totalAuditCount).2.2.1 +
       (advanceReputation req.auditOutcome dbNode.auditReputationAlpha
        dbNode.auditReputationBeta dbNode.unknownAuditReputationAlpha
        dbNode.unknownAuditReputationBeta req.auditLambda req.auditWeight
        dbNode.totalAuditCount).2.2.2.1) ≤ req.auditDQ →
      (populateUpdateNodeStats dbNode req resp now).disqualified =
        { set := true, value := now } ∧
      (populateUpdateNodeStats dbNode req resp now).unknownAuditSuspended =
        { set := true, isNil := true }) := by
  constructor
  · intro dbNode req unknownAuditRep now fields hfu hfd
    by_cases hle : unknownAuditRep ≤ req.auditDQ
    · cases hu : dbNode.unknownAuditSuspended with
      | none =>
          by_cases hout : req.auditOutcome = AuditOutcome.success <;>
            simp [unknownAuditStep, hle, hu, hout, hfu, hfd]
      | some t =>
          by_cases hout : req.auditOutcome = AuditOutcome.success
          · simp [unknownAuditStep, hle, hu, hout, hfd]
          · by_cases hgt : now - t > req.suspensionGracePeriod <;>
              by_cases hen : req.suspensionDQEnabled = true <;>
                simp [unknownAuditStep, hle, hu, hout, hfu, hfd, hgt, hen]
    · cases hu : dbNode.unknownAuditSuspended <;>
        simp [unknownAuditStep, hle, hu, hfd]
  · intro dbNode req resp now t hu hout hen hgt hle
    cases hr : dbNode.underReview <;>
      constructor <;>
        simp [populateUpdateNodeStats, unknownAuditStep, hu, hr, hout, hen, hgt, hle,
          apply_ite (fun s : UpdateNodeStats => s.disqualified),
          apply_ite (fun s : UpdateNodeStats => s.unknownAuditSuspended)]

/-- Node for the C2 counterexample: suspended for unknown audits since time
0, with a strong normal reputation and a perfect unknown reputation. -/
def c2Node : Reputation :=
  { baseNode with
      unknownAuditSuspended := some 0,
      auditReputationAlpha := 10,
      auditReputationBeta := 0 }

/-- Request for the C2 counterexample: a Failure outcome with no decay. -/
def c2Request : UpdateRequest :=
  { baseRequest with
      auditOutcome := AuditOutcome.failure,
      auditLambda := 1,
      auditDQ := 1/2 }

/-- Counterexample for C2 as stated: the node was already suspended, the
outcome is not Success, SuspensionDQEnabled holds and the grace period has
elapsed, yet no disqualification happens, because the unknown reputation
(here 1) is above the threshold, a condition the claim omits. -/
theorem c2_counterexample :
    c2Node.unknownAuditSuspended = some 0 ∧
    c2Request.auditOutcome ≠ AuditOutcome.success ∧
    c2Request.suspensionDQEnabled = true ∧
    (100 : Int) - 0 > c2Request.suspensionGracePeriod ∧
    (populateUpdateNodeStats c2Node c2Request baseResponse 100).disqualified.set = false := by
  refine ⟨rfl, by decide, rfl, by decide, ?_⟩
  norm_num [populateUpdateNodeStats, unknownAuditStep, advanceReputation, updateReputation,
    c2Node, c2Request, baseNode, baseRequest, baseResponse, exampleConfig,
    apply_ite (fun s : UpdateNodeStats => s.disqualified)]

/-- Witness for C2: with the unknown reputation driven to 1/3 (at or below
the 1/2 threshold) and every other condition as in the claim, case b fires:
disqualified is set to now and the suspension is cleared. -/
theorem c2_witness :
    (populateUpdateNodeStats
      { c2Node with unknownAuditReputationAlpha := 1, unknownAuditReputationBeta := 1 }
      c2Request baseResponse 100).disqualified = { set := true, value := 100 } ∧
    (populateUpdateNodeStats
      { c2Node with unknownAuditReputationAlpha := 1, unknownAuditReputationBeta := 1 }
      c2Request baseResponse 100).unknownAuditSuspended = { set := true, isNil := true } := by
  exact c2_grace_period_dq.2
    { c2Node with unknownAuditReputationAlpha := 1, unknownAuditReputationBeta := 1 }
    c2Request baseResponse 100 0 rfl (by decide) rfl (by decide)
    (by norm_num [advanceReputation, updateReputation, c2Node, baseNode, c2Request, baseRequest])

/-- The audit-history record shared by the concrete examples: two complete
windows, half online then fully online. -/
def exampleHistory : AuditHistory :=
  { score := 1, windows := [⟨0, 10, 5⟩, ⟨1, 10, 10⟩] }

/-- Node for the C1 counterexample: already disqualified at time 7. -/
def c1Node : Reputation := { baseNode with disqualified := some 7 }

/-- Counterexample for C1 as stated: an Update on an already disqualified
node leaves both records untouched but returns changed = true, not false,
because the pre-update snapshot is left at its zero value by the early
return and never equals a status whose disqualified is set. -/
theorem c1_counterexample :
    c1Node.disqualified = some 7 ∧
    Update c1Node exampleHistory baseRequest 100 =
      Except.ok { reputation := c1Node, history := exampleHistory,
                  status := getNodeStatus c1Node, changed := true } ∧
    (true : Bool) ≠ false := by
  exact ⟨rfl, by rfl, by decide⟩

/-- C1 (amended): for a node whose disqualified timestamp is set, Update
commits no change to either record and returns the stored status, but the
returned changed flag is true: the zero-valued pre-update snapshot differs
from any status with disqualified set. -/
theorem c1_frozen_record (dbNode : Reputation) (history : AuditHistory)
    (req : UpdateRequest) (now : Int) (d : Int)
    (h : dbNode.disqualified = some d) :
    Update dbNode history req now =
      Except.ok { reputation := dbNode, history := history,
                  status := getNodeStatus dbNode, changed := true } := by
  have hne : zeroReputationStatus ≠ getNodeStatus dbNode := by
    intro he
    have h2 := congrArg ReputationStatus.disqualified he
    simp [zeroReputationStatus, getNodeStatus, h] at h2
  simp [Update, h, hne]

/-- Witness for C1. -/
theorem c1_witness :
    Update c1Node exampleHistory baseRequest 100 =
      Except.ok { reputation := c1Node, history := exampleHistory,
                  status := getNodeStatus c1Node, changed := true } :=
  c1_frozen_record c1Node exampleHistory baseRequest 100 7 rfl

/- Error characterization of the audit-history step, and claims C4, C5, C9. -/

theorem ite_ok_ne_error {c : Prop} [Decidable c] (x y : AuditHistory) (e : String) :
    (if c then Except.ok x else Except.ok y : Except String AuditHistory) ≠ Except.error e := by
  split <;> simp

theorem ite_ite_ok_ne_error {c1 c2 : Prop} [Decidable c1] [Decidable c2]
    (x y z : AuditHistory) (e : String) :
    (if c1 then Except.ok x else if c2 then Except.ok y else Except.ok z :
      Except String AuditHistory) ≠ Except.error e := by
  split
  · simp
  · exact ite_ok_ne_error y z e

theorem record_error_iff (a : AuditHistory) (t : Int) (online : Bool)
    (cfg : AuditHistoryConfig) (htp : 0 ≤ cfg.trackingPeriod) :
    ((∃ e, recordAuditHistory a t online cfg = Except.error e) ↔
      ∃ w, a.windows.getLast? = some w ∧ truncate t cfg.windowSize < w.windowStart) := by
  rw [recordAuditHistory]
  cases hd : (dropStaleWindows (truncate t cfg.windowSize - cfg.trackingPeriod) a.windows).1.getLast? with
  | none =>
      have hnil : (dropStaleWindows (truncate t cfg.windowSize - cfg.trackingPeriod) a.windows).1 = [] :=
        List.getLast?_eq_none_iff.mp hd
      constructor
      · intro hex
        rcases hex with ⟨e, he⟩
        simp only [newWindowNeeded, hd, hnil] at he
        simp at he
        exact absurd he (ite_ok_ne_error _ _ _)
      · intro hex
        rcases hex with ⟨w, hw, hlt⟩
        have := dropStale_nil_last (truncate t cfg.windowSize - cfg.trackingPeriod) a.windows w hw hnil
        omega
  | some w0 =>
      have hne : (dropStaleWindows (truncate t cfg.windowSize - cfg.trackingPeriod) a.windows).1 ≠ [] := by
        intro hn
        rw [hn] at hd
        simp at hd
      have hlast : a.windows.getLast? = some w0 := by
        rcases dropStale_getLast (truncate t cfg.windowSize - cfg.trackingPeriod) a.windows with h | h
        · exact absurd h hne
        · rw [← h, hd]
      by_cases haddNew : w0.windowStart < truncate t cfg.windowSize
      · constructor
        · intro hex
          rcases hex with ⟨e, he⟩
          simp [newWindowNeeded, hd, haddNew] at he
          exact absurd he (ite_ok_ne_error _ _ _)
        · intro hex
          rcases hex with ⟨w, hw, hlt⟩
          rw [hlast] at hw
          injection hw with hw
          subst hw
          omega
      · constructor
        · intro hex
          rcases hex with ⟨e, he⟩
          simp only [newWindowNeeded, hd] at he
          by_cases hstale : truncate t cfg.windowSize < w0.windowStart
          · exact ⟨w0, hlast, hstale⟩
          · simp [hd, haddNew, hstale] at he
            exact absurd he (ite_ite_ok_ne_error _ _ _ _)
        · intro hex
          rcases hex with ⟨w, hw, hlt⟩
          rw [hlast] at hw
          injection hw with hw
          subst hw
          refine ⟨staleObservationMessage, ?_⟩
          simp [newWindowNeeded, hd, haddNew, hlt]

theorem record_error_msg (a : AuditHistory) (t : Int) (online : Bool)
    (cfg : AuditHistoryConfig) :
    ∀ e, recordAuditHistory a t online cfg = Except.error e → e = staleObservationMessage := by
  intro e he
  rw [recordAuditHistory] at he
  split at he
  · injection he with h
    exact h.symm
  · split at he
    · injection he with h
      exact h.symm
    · exact absurd he (ite_ite_ok_ne_error _ _ _ _)

theorem withTx_error_iff (history : AuditHistory) (t : Int) (online : Bool)
    (cfg : AuditHistoryConfig) (e : String) :
    updateAuditHistoryWithTx history t online cfg = Except.error e ↔
      recordAuditHistory history t online cfg = Except.error e := by
  rw [updateAuditHistoryWithTx]
  cases hr : recordAuditHistory history t online cfg <;> simp

/-- C5: reputations.Update fails, with the stale-observation error, exactly
when the node is not already disqualified and the stored last window starts
strictly after the truncated observation time; the failure aborts the
transaction, so no state accompanies it, and the stale-observation message
is the only failure mode. -/
theorem c5_stale_observation (dbNode : Reputation) (hist : AuditHistory)
    (req : UpdateRequest) (now : Int)
    (htp : 0 ≤ req.auditHistory.trackingPeriod) :
    ((∃ e, Update dbNode hist req now = Except.error e) ↔
      (dbNode.disqualified = none ∧
        ∃ w, hist.windows.getLast? = some w ∧
          truncate now req.auditHistory.windowSize < w.windowStart)) ∧
    (∀ e, Update dbNode hist req now = Except.error e → e = staleObservationMessage) := by
  cases hdq : dbNode.disqualified with
  | some d =>
      constructor
      · constructor
        · intro hex
          rcases hex with ⟨e, he⟩
          simp [Update, hdq] at he
        · intro hex
          rcases hex with ⟨hnone, _⟩
          simp [hdq] at hnone
      · intro e he
        simp [Update, hdq] at he
  | none =>
      have hbody : Update dbNode hist req now =
          (match updateAuditHistoryWithTx hist now
              (!decide (req.auditOutcome = AuditOutcome.offline)) req.auditHistory with
            | Except.error e => Except.error e
            | Except.ok res =>
                Except.ok { reputation := reputationAfterUpdate dbNode req res.2 now,
                            history := res.1,
                            status := getNodeStatus (reputationAfterUpdate dbNode req res.2 now),
                            changed := !(decide (getNodeStatus dbNode =
                              getNodeStatus (reputationAfterUpdate dbNode req res.2 now))) }) := by
        rw [Update]
        simp [hdq]
      constructor
      · constructor
        · intro hex
          rcases hex with ⟨e, he⟩
          rw [hbody] at he
          refine ⟨rfl, ?_⟩
          cases hu : updateAuditHistoryWithTx hist now
              (!decide (req.auditOutcome = AuditOutcome.offline)) req.auditHistory with
          | error e2 =>
              have hrec := (withTx_error_iff hist now _ req.auditHistory e2).mp hu
              exact (record_error_iff hist now _ req.auditHistory htp).mp ⟨e2, hrec⟩
          | ok r => simp [hu] at he
        · intro hex
          rcases hex with ⟨_, hstale⟩
          obtain ⟨e, hrec⟩ :=
            (record_error_iff hist now
              (!decide (req.auditOutcome = AuditOutcome.offline)) req.auditHistory htp).mpr hstale
          refine ⟨e, ?_⟩
          rw [hbody, (withTx_error_iff hist now _ req.auditHistory e).mpr hrec]
      · intro e he
        rw [hbody] at he
        cases hu : updateAuditHistoryWithTx hist now
            (!decide (req.auditOutcome = AuditOutcome.offline)) req.auditHistory with
        | error e2 =>
            rw [hu] at he
            injection he with h
            rw [← h]
            exact record_error_msg hist now _ req.auditHistory e2
              ((withTx_error_iff hist now _ req.auditHistory e2).mp hu)
        | ok r => rw [hu] at he; simp at he

/-- Witness for C5: an observation at time 2 against a history whose last
window starts at 5 fails with the stale-observation error. -/
theorem c5_witness :
    Update baseNode { score := 1, windows := [⟨5, 3, 1⟩] } baseRequest 2 =
      Except.error staleObservationMessage := by
  have h := c5_stale_observation baseNode { score := 1, windows := [⟨5, 3, 1⟩] } baseRequest 2
    (by decide)
  obtain ⟨e, he⟩ := h.1.mpr ⟨rfl, ⟨5, 3, 1⟩, rfl, by decide⟩
  rw [he, h.2 e he]

theorem score_cases2 (ws2 : List AuditWindow) (h2 : AuditHistory)
    (hok : (if ws2.length ≤ 1 then Except.ok { score := 1, windows := ws2 }
            else Except.ok { score := windowedScore ws2, windows := ws2 } :
              Except String AuditHistory) = Except.ok h2) :
    (h2.windows.length = 1 → h2.score = 1) /\
    (1 < h2.windows.length ->
      h2.score =
        ((h2.windows.dropLast.map fun w => (w.onlineCount : ℚ) / (w.totalCount : ℚ)).sum) /
          ((h2.windows.length : ℚ) - 1)) := by
  by_cases hle : ws2.length ≤ 1
  . rw [if_pos hle] at hok
    injection hok with hok
    subst hok
    constructor
    . intro _
      rfl
    . intro hlen
      simp only at hlen
      omega
  . rw [if_neg hle] at hok
    injection hok with hok
    subst hok
    constructor
    . intro hlen
      simp only at hlen
      omega
    . intro _
      rw [windowedScore]

theorem score_cases (a : AuditHistory) (ws2 : List AuditWindow) (wm : Bool) (h2 : AuditHistory)
    (hok : (if wm = false then Except.ok { score := a.score, windows := ws2 }
            else if ws2.length ≤ 1 then Except.ok { score := 1, windows := ws2 }
            else Except.ok { score := windowedScore ws2, windows := ws2 } :
              Except String AuditHistory) = Except.ok h2) :
    (wm = false → h2.score = a.score) /\
    (wm = true ->
      (h2.windows.length = 1 → h2.score = 1) /\
      (1 < h2.windows.length ->
        h2.score =
          ((h2.windows.dropLast.map fun w => (w.onlineCount : ℚ) / (w.totalCount : ℚ)).sum) /
            ((h2.windows.length : ℚ) - 1))) := by
  cases wm with
  | false =>
      rw [if_pos rfl] at hok
      injection hok with hok
      subst hok
      constructor
      . intro _
        rfl
      . intro ht
        exact absurd ht (by simp)
  | true =>
      rw [if_neg (by simp)] at hok
      constructor
      . intro hf
        exact absurd hf (by simp)
      . intro _
        exact score_cases2 ws2 h2 hok

/-- C4: when recording an observation succeeds, the score is recomputed only
if windows were dropped or added: it becomes 1 when exactly one window
remains, and otherwise the mean over every window except the last of
onlineCount/totalCount; when no window was dropped or added the cached
score is kept unchanged. -/
theorem c4_score_recomputation (a : AuditHistory) (auditTime : Int) (online : Bool)
    (config : AuditHistoryConfig) (h2 : AuditHistory)
    (hok : recordAuditHistory a auditTime online config = Except.ok h2) :
    (((dropStaleWindows (truncate auditTime config.windowSize - config.trackingPeriod) a.windows).2 ||
        newWindowNeeded
          (dropStaleWindows (truncate auditTime config.windowSize - config.trackingPeriod) a.windows).1
          (truncate auditTime config.windowSize)) = false →
      h2.score = a.score) ∧
    (((dropStaleWindows (truncate auditTime config.windowSize - config.trackingPeriod) a.windows).2 ||
        newWindowNeeded
          (dropStaleWindows (truncate auditTime config.windowSize - config.trackingPeriod) a.windows).1
          (truncate auditTime config.windowSize)) = true →
      (h2.windows.length = 1 → h2.score = 1) ∧
      (1 < h2.windows.length →
        h2.score =
          ((h2.windows.dropLast.map fun w => (w.onlineCount : ℚ) / (w.totalCount : ℚ)).sum) /
            ((h2.windows.length : ℚ) - 1))) := by
  cases hd : (dropStaleWindows (truncate auditTime config.windowSize - config.trackingPeriod) a.windows).1.getLast? with
  | none =>
      have hnil : (dropStaleWindows (truncate auditTime config.windowSize - config.trackingPeriod) a.windows).1 = [] :=
        List.getLast?_eq_none_iff.mp hd
      rw [recordAuditHistory] at hok
      simp only [newWindowNeeded, hd, hnil] at hok
      constructor
      · intro hf
        simp [newWindowNeeded, hd] at hf
      · intro _
        exact score_cases2 _ h2 (by simpa using hok)
  | some w0 =>
      by_cases haddNew : w0.windowStart < truncate auditTime config.windowSize
      · rw [recordAuditHistory] at hok
        simp [newWindowNeeded, hd, haddNew] at hok
        constructor
        · intro hf
          simp [newWindowNeeded, hd, haddNew] at hf
        · intro _
          exact score_cases2 _ h2 hok
      · rw [recordAuditHistory] at hok
        by_cases hstale : truncate auditTime config.windowSize < w0.windowStart
        · simp [newWindowNeeded, hd, haddNew, hstale] at hok
        · simp [newWindowNeeded, hd, haddNew, hstale] at hok
          have hmain := score_cases a _
            (dropStaleWindows (truncate auditTime config.windowSize - config.trackingPeriod) a.windows).2
            h2 hok
          constructor
          · intro hf
            apply hmain.1
            simpa [newWindowNeeded, hd, haddNew] using hf
          · intro ht
            apply hmain.2
            simpa [newWindowNeeded, hd, haddNew] using ht

/-- Witness for C4 at the spec example: windows (10,5) and (10,10) complete
and a third in-progress window; the recomputed score is 3/4, the mean of
1/2 and 1. -/
theorem c4_witness :
    recordAuditHistory exampleHistory 2 true exampleConfig =
      Except.ok { score := 3/4, windows := [⟨0, 10, 5⟩, ⟨1, 10, 10⟩, ⟨2, 1, 1⟩] } ∧
    (3/4 : ℚ) = ((1 : ℚ)/2 + 1) / 2 := by
  have hrec : recordAuditHistory exampleHistory 2 true exampleConfig =
      Except.ok { score := 3/4, windows := [⟨0, 10, 5⟩, ⟨1, 10, 10⟩, ⟨2, 1, 1⟩] } := by
    rw [recordAuditHistory]
    norm_num [exampleHistory, exampleConfig, truncate, Int.fdiv, dropStaleWindows,
      newWindowNeeded, bumpLast, windowedScore]
  refine ⟨hrec, ?_⟩
  have h := c4_score_recomputation exampleHistory 2 true exampleConfig
    { score := 3/4, windows := [⟨0, 10, 5⟩, ⟨1, 10, 10⟩, ⟨2, 1, 1⟩] } hrec
  have h34 := (h.2 (by
    norm_num [exampleHistory, exampleConfig, truncate, Int.fdiv, dropStaleWindows,
      newWindowNeeded])).2 (by norm_num)
  norm_num at h34 ⊢

/-- C9: after a successful record step, trackingPeriodFull is true exactly
when the number of windows minus one reaches the floor of trackingPeriod
over windowSize. -/
theorem c9_tracking_period_full (hist : AuditHistory) (t : Int) (online : Bool)
    (cfg : AuditHistoryConfig) (hist2 : AuditHistory) (resp : UpdateAuditHistoryResponse)
    (hws : 0 < cfg.windowSize) (htp : 0 ≤ cfg.trackingPeriod)
    (hok : updateAuditHistoryWithTx hist t online cfg = Except.ok (hist2, resp)) :
    resp.trackingPeriodFull = true ↔
      Int.fdiv cfg.trackingPeriod cfg.windowSize ≤ (hist2.windows.length : Int) - 1 := by
  rw [updateAuditHistoryWithTx] at hok
  cases hr : recordAuditHistory hist t online cfg with
  | error e =>
      rw [hr] at hok
      simp at hok
  | ok nh =>
      rw [hr] at hok
      simp only [Except.ok.injEq, Prod.mk.injEq] at hok
      rcases hok with ⟨h1, h2r⟩
      subst h1
      rw [← h2r]
      simp only [decide_eq_true_eq, ge_iff_le]
      rw [Int.tdiv_eq_ediv htp (le_of_lt hws), Int.fdiv_eq_ediv _ (le_of_lt hws)]

/-- Witness for C9: recording into the example history yields three windows
while a full tracking period needs four complete ones, so the flag is false
and the count bound fails. -/
theorem c9_witness :
    ¬ Int.fdiv exampleConfig.trackingPeriod exampleConfig.windowSize ≤
        ((({ score := 3/4, windows := [⟨0, 10, 5⟩, ⟨1, 10, 10⟩, ⟨2, 1, 1⟩] } :
          AuditHistory).windows.length : Int) - 1) := by
  have hrec : recordAuditHistory exampleHistory 2 true exampleConfig =
      Except.ok { score := 3/4, windows := [⟨0, 10, 5⟩, ⟨1, 10, 10⟩, ⟨2, 1, 1⟩] } := by
    rw [recordAuditHistory]
    norm_num [exampleHistory, exampleConfig, truncate, Int.fdiv, dropStaleWindows,
      newWindowNeeded, bumpLast, windowedScore]
  have hu : updateAuditHistoryWithTx exampleHistory 2 true exampleConfig =
      Except.ok ({ score := 3/4, windows := [⟨0, 10, 5⟩, ⟨1, 10, 10⟩, ⟨2, 1, 1⟩] },
        { newScore := 3/4, trackingPeriodFull := false }) := by
    rw [updateAuditHistoryWithTx, hrec]
    norm_num [exampleConfig]
  have h := c9_tracking_period_full exampleHistory 2 true exampleConfig
    { score := 3/4, windows := [⟨0, 10, 5⟩, ⟨1, 10, 10⟩, ⟨2, 1, 1⟩] }
    { newScore := 3/4, trackingPeriodFull := false }
    (by decide) (by decide) hu
  intro hle
  have hfa : ({ newScore := 3/4, trackingPeriodFull := false } :
      UpdateAuditHistoryResponse).trackingPeriodFull = true := h.mpr hle
  simp at hfa

/-- C7: with offline-suspension tracking enabled, a node under review has
offlineSuspended toggled to match this round's penalize flag (newScore below
offlineThreshold with a full tracking period); once now passes
underReview + gracePeriod + trackingPeriod the update disqualifies the node
(when still penalized and OfflineDQEnabled) or clears both underReview and
offlineSuspended (when recovered); a node not under review enters review
with both underReview and offlineSuspended set to now exactly when
penalized, and otherwise both fields stay untouched. -/
theorem c7_offline_state_machine (rep : Reputation) (req : UpdateRequest)
    (resp : UpdateAuditHistoryResponse) (now : Int)
    (hen : req.auditHistory.offlineSuspensionEnabled = true) :
    (∀ t, rep.underReview = some t →
      ((reputationAfterUpdate rep req resp now).offlineSuspended ≠ none ↔
        (resp.newScore < req.auditHistory.offlineThreshold ∧ resp.trackingPeriodFull = true)) ∧
      (now > t + req.auditHistory.gracePeriod + req.auditHistory.trackingPeriod →
        ((resp.newScore < req.auditHistory.offlineThreshold ∧ resp.trackingPeriodFull = true) →
          req.auditHistory.offlineDQEnabled = true →
          (reputationAfterUpdate rep req resp now).disqualified = some now) ∧
        (¬(resp.newScore < req.auditHistory.offlineThreshold ∧ resp.trackingPeriodFull = true) →
          (reputationAfterUpdate rep req resp now).underReview = none ∧
          (reputationAfterUpdate rep req resp now).offlineSuspended = none))) ∧
    (rep.underReview = none →
      ((resp.newScore < req.auditHistory.offlineThreshold ∧ resp.trackingPeriodFull = true) →
        (reputationAfterUpdate rep req resp now).underReview = some now ∧
        (reputationAfterUpdate rep req resp now).offlineSuspended = some now) ∧
      (¬(resp.newScore < req.auditHistory.offlineThreshold ∧ resp.trackingPeriodFull = true) →
        (reputationAfterUpdate rep req resp now).underReview = rep.underReview ∧
        (reputationAfterUpdate rep req resp now).offlineSuspended = rep.offlineSuspended)) := by
  constructor
  · intro t hr
    constructor
    · by_cases hP : resp.newScore < req.auditHistory.offlineThreshold ∧ resp.trackingPeriodFull = true
      · rcases hP with ⟨hP1, hP2⟩
        rw [after_offlineSuspended]
        cases hu : rep.unknownAuditSuspended <;> cases hos : rep.offlineSuspended <;>
          by_cases hpass : now > t + req.auditHistory.gracePeriod + req.auditHistory.trackingPeriod <;>
            simp [populateUpdateNodeStats, unknownAuditStep, hen, hr, hu, hos, hP1, hP2, hpass,
              apply_ite (fun s : UpdateNodeStats => s.offlineSuspended)]
      · have hpen : (decide (resp.newScore < req.auditHistory.offlineThreshold) &&
            resp.trackingPeriodFull) = false := by
          rcases Decidable.em (resp.newScore < req.auditHistory.offlineThreshold) with h1 | h1
          · rcases Decidable.em (resp.trackingPeriodFull = true) with h2 | h2
            · exact absurd ⟨h1, h2⟩ hP
            · simp [Bool.not_eq_true] at h2
              simp [h2]
          · simp [h1]
        rw [after_offlineSuspended]
        cases hu : rep.unknownAuditSuspended <;> cases hos : rep.offlineSuspended <;>
          by_cases hpass : now > t + req.auditHistory.gracePeriod + req.auditHistory.trackingPeriod <;>
            simp [populateUpdateNodeStats, unknownAuditStep, hen, hr, hu, hos, hpen, hpass, hP,
              apply_ite (fun s : UpdateNodeStats => s.offlineSuspended)]
    · intro hpass
      constructor
      · intro hP hdqe
        rcases hP with ⟨hP1, hP2⟩
        rw [after_disqualified]
        cases hu : rep.unknownAuditSuspended <;> cases hos : rep.offlineSuspended <;>
          simp [populateUpdateNodeStats, unknownAuditStep, hen, hr, hu, hos, hP1, hP2, hpass, hdqe,
            apply_ite (fun s : UpdateNodeStats => s.disqualified)]
      · intro hP
        have hpen : (decide (resp.newScore < req.auditHistory.offlineThreshold) &&
            resp.trackingPeriodFull) = false := by
          rcases Decidable.em (resp.newScore < req.auditHistory.offlineThreshold) with h1 | h1
          · rcases Decidable.em (resp.trackingPeriodFull = true) with h2 | h2
            · exact absurd ⟨h1, h2⟩ hP
            · simp [Bool.not_eq_true] at h2
              simp [h2]
          · simp [h1]
        rw [after_underReview, after_offlineSuspended]
        cases hu : rep.unknownAuditSuspended <;> cases hos : rep.offlineSuspended <;>
          simp [populateUpdateNodeStats, unknownAuditStep, hen, hr, hu, hos, hpen, hpass,
            apply_ite (fun s : UpdateNodeStats => s.offlineSuspended),
            apply_ite (fun s : UpdateNodeStats => s.offlineUnderReview)]
  · intro hr
    constructor
    · intro hP
      rcases hP with ⟨hP1, hP2⟩
      rw [after_underReview, after_offlineSuspended]
      cases hu : rep.unknownAuditSuspended <;> cases hos : rep.offlineSuspended <;>
        simp [populateUpdateNodeStats, unknownAuditStep, hen, hr, hu, hos, hP1, hP2,
          apply_ite (fun s : UpdateNodeStats => s.offlineSuspended),
          apply_ite (fun s : UpdateNodeStats => s.offlineUnderReview)]
    · intro hP
      have hpen : (decide (resp.newScore < req.auditHistory.offlineThreshold) &&
          resp.trackingPeriodFull) = false := by
        rcases Decidable.em (resp.newScore < req.auditHistory.offlineThreshold) with h1 | h1
        · rcases Decidable.em (resp.trackingPeriodFull = true) with h2 | h2
          · exact absurd ⟨h1, h2⟩ hP
          · simp [Bool.not_eq_true] at h2
            simp [h2]
        · simp [h1]
      rw [after_underReview, after_offlineSuspended]
      cases hu : rep.unknownAuditSuspended <;> cases hos : rep.offlineSuspended <;>
        simp [populateUpdateNodeStats, unknownAuditStep, hen, hr, hu, hos, hpen,
          apply_ite (fun s : UpdateNodeStats => s.offlineSuspended),
          apply_ite (fun s : UpdateNodeStats => s.offlineUnderReview)]

/-- Node for the C7 witness: under review since time 0 and suspended. -/
def c7Node : Reputation := { baseNode with underReview := some 0, offlineSuspended := some 0 }

/-- Response for the C7 witness with a failing online score. -/
def c7BadResponse : UpdateAuditHistoryResponse := { newScore := 1/2, trackingPeriodFull := true }

/-- Response for the C7 witness with a recovered online score. -/
def c7GoodResponse : UpdateAuditHistoryResponse := { newScore := 1, trackingPeriodFull := true }

/-- Witness for C7: past the review window a still-failing node is
disqualified, a recovered one has both review fields cleared, and a
penalized node not yet under review enters review suspended. -/
theorem c7_witness :
    (reputationAfterUpdate c7Node baseRequest c7BadResponse 100).disqualified = some 100 ∧
    ((reputationAfterUpdate c7Node baseRequest c7GoodResponse 100).underReview = none ∧
      (reputationAfterUpdate c7Node baseRequest c7GoodResponse 100).offlineSuspended = none) ∧
    ((reputationAfterUpdate baseNode baseRequest c7BadResponse 100).underReview = some 100 ∧
      (reputationAfterUpdate baseNode baseRequest c7BadResponse 100).offlineSuspended = some 100) := by
  refine ⟨?_, ?_, ?_⟩
  · exact (((c7_offline_state_machine c7Node baseRequest c7BadResponse 100 rfl).1 0 rfl).2
      (by decide)).1 ⟨by norm_num [c7BadResponse, baseRequest, exampleConfig], rfl⟩ rfl
  · exact (((c7_offline_state_machine c7Node baseRequest c7GoodResponse 100 rfl).1 0 rfl).2
      (by decide)).2
      (fun hP => absurd hP.1 (by norm_num [c7GoodResponse, baseRequest, exampleConfig]))
  · exact ((c7_offline_state_machine baseNode baseRequest c7BadResponse 100 rfl).2 rfl).1
      ⟨by norm_num [c7BadResponse, baseRequest, exampleConfig], rfl⟩

/-- C10: the online flag recorded into the audit history and the choice of
contact timestamp are both determined solely by whether the outcome is
Offline: the stats set lastContactSuccess exactly on non-Offline outcomes
and lastContactFailure exactly on Offline ones; a recorded observation
increments the last window's onlineCount exactly when the online flag
holds; and Update feeds the history step the flag outcome-is-not-Offline. -/
theorem c10_online_flag :
    (∀ (dbNode : Reputation) (req : UpdateRequest)
        (resp : UpdateAuditHistoryResponse) (now : Int),
      (populateUpdateNodeStats dbNode req resp now).lastContactSuccess =
        (if req.auditOutcome ≠ AuditOutcome.offline then
          { set := true, value := now } else {}) ∧
      (populateUpdateNodeStats dbNode req resp now).lastContactFailure =
        (if req.auditOutcome = AuditOutcome.offline then
          { set := true, value := now } else {})) ∧
    (∀ (a : AuditHistory) (t : Int) (online : Bool) (cfg : AuditHistoryConfig)
        (h2 : AuditHistory),
      recordAuditHistory a t online cfg = Except.ok h2 →
      ∃ base : AuditWindow,
        h2.windows.getLast? = some { base with
          totalCount := base.totalCount + 1,
          onlineCount := base.onlineCount + (if online then 1 else 0) } ∧
        (base = ⟨truncate t cfg.windowSize, 0, 0⟩ ∨ a.windows.getLast? = some base)) ∧
    (∀ (dbNode : Reputation) (hist : AuditHistory) (req : UpdateRequest) (now : Int),
      dbNode.disqualified = none →
      Except.map UpdateResult.history (Update dbNode hist req now) =
        Except.map Prod.fst (updateAuditHistoryWithTx hist now
          (decide (req.auditOutcome ≠ AuditOutcome.offline)) req.auditHistory)) := by
  refine ⟨?_, ?_, ?_⟩
  · intro dbNode req resp now
    constructor <;>
      by_cases hup : req.auditOutcome = AuditOutcome.offline <;>
        cases hu : dbNode.unknownAuditSuspended <;> cases hr : dbNode.underReview <;>
          simp [populateUpdateNodeStats, unknownAuditStep, hup, hu, hr,
            apply_ite (fun s : UpdateNodeStats => s.lastContactSuccess),
            apply_ite (fun s : UpdateNodeStats => s.lastContactFailure)]
  · intro a t online cfg h2 hok
    cases hd : (dropStaleWindows (truncate t cfg.windowSize - cfg.trackingPeriod) a.windows).1.getLast? with
    | none =>
        have hnil : (dropStaleWindows (truncate t cfg.windowSize - cfg.trackingPeriod) a.windows).1 = [] :=
          List.getLast?_eq_none_iff.mp hd
        rw [recordAuditHistory] at hok
        simp [newWindowNeeded, hd, hnil] at hok
        refine ⟨⟨truncate t cfg.windowSize, 0, 0⟩, ?_, Or.inl rfl⟩
        have hws : h2.windows = bumpLast online [⟨truncate t cfg.windowSize, 0, 0⟩] := by
          repeat' split at hok
          all_goals (injection hok with hok; rw [← hok])
        rw [hws]
        exact bumpLast_getLast online [⟨truncate t cfg.windowSize, 0, 0⟩] _ rfl
    | some w0 =>
        have hne : (dropStaleWindows (truncate t cfg.windowSize - cfg.trackingPeriod) a.windows).1 ≠ [] := by
          intro hn
          rw [hn] at hd
          simp at hd
        have hlast : a.windows.getLast? = some w0 := by
          rcases dropStale_getLast (truncate t cfg.windowSize - cfg.trackingPeriod) a.windows with h | h
          · exact absurd h hne
          · rw [← h, hd]
        by_cases haddNew : w0.windowStart < truncate t cfg.windowSize
        · rw [recordAuditHistory] at hok
          simp [newWindowNeeded, hd, haddNew] at hok
          refine ⟨⟨truncate t cfg.windowSize, 0, 0⟩, ?_, Or.inl rfl⟩
          have hws : h2.windows = bumpLast online
              ((dropStaleWindows (truncate t cfg.windowSize - cfg.trackingPeriod) a.windows).1 ++
                [⟨truncate t cfg.windowSize, 0, 0⟩]) := by
            repeat' split at hok
            all_goals (injection hok with hok; rw [← hok])
          rw [hws]
          exact bumpLast_getLast online _ _ (by simp)
        · rw [recordAuditHistory] at hok
          by_cases hstale : truncate t cfg.windowSize < w0.windowStart
          · simp [newWindowNeeded, hd, haddNew, hstale] at hok
          · simp [newWindowNeeded, hd, haddNew, hstale] at hok
            refine ⟨w0, ?_, Or.inr hlast⟩
            have hws : h2.windows = bumpLast online
                (dropStaleWindows (truncate t cfg.windowSize - cfg.trackingPeriod) a.windows).1 := by
              repeat' split at hok
              all_goals (injection hok with hok; rw [← hok])
            rw [hws]
            exact bumpLast_getLast online _ _ hd
  · intro dbNode hist req now hdq
    rw [Update]
    simp only [hdq, ne_eq, not_true_eq_false, if_false, ite_not]
    cases hu : updateAuditHistoryWithTx hist now
        (decide (req.auditOutcome ≠ AuditOutcome.offline)) req.auditHistory <;>
      simp [Update, hdq, hu, Except.map]

/-- Witness for C10: a Success outcome stamps lastContactSuccess, an Offline
outcome stamps lastContactFailure, an online observation lands in the last
window, and Update forwards the outcome-is-not-Offline flag. -/
theorem c10_witness :
    (populateUpdateNodeStats baseNode baseRequest baseResponse 100).lastContactSuccess =
      { set := true, value := 100 } ∧
    (populateUpdateNodeStats baseNode
      { baseRequest with auditOutcome := AuditOutcome.offline } baseResponse 100).lastContactFailure =
      { set := true, value := 100 } ∧
    ({ score := 3/4, windows := [⟨0, 10, 5⟩, ⟨1, 10, 10⟩, ⟨2, 1, 1⟩] } :
      AuditHistory).windows.getLast?.isSome = true ∧
    Except.map UpdateResult.history (Update baseNode exampleHistory baseRequest 100) =
      Except.map Prod.fst (updateAuditHistoryWithTx exampleHistory 100
        (decide (baseRequest.auditOutcome ≠ AuditOutcome.offline)) baseRequest.auditHistory) := by
  obtain ⟨hi, hii, hiii⟩ := c10_online_flag
  refine ⟨?_, ?_, ?_, ?_⟩
  · rw [(hi baseNode baseRequest baseResponse 100).1,
      if_pos (by decide : baseRequest.auditOutcome ≠ AuditOutcome.offline)]
  · rw [(hi baseNode { baseRequest with auditOutcome := AuditOutcome.offline } baseResponse 100).2,
      if_pos rfl]
  · have hrec : recordAuditHistory exampleHistory 2 true exampleConfig =
        Except.ok { score := 3/4, windows := [⟨0, 10, 5⟩, ⟨1, 10, 10⟩, ⟨2, 1, 1⟩] } := by
      rw [recordAuditHistory]
      norm_num [exampleHistory, exampleConfig, truncate, Int.fdiv, dropStaleWindows,
        newWindowNeeded, bumpLast, windowedScore]
    obtain ⟨base, hb, _⟩ := hii exampleHistory 2 true exampleConfig _ hrec
    rw [hb]
    rfl
  · exact hiii baseNode exampleHistory baseRequest 100 rfl
